import Mathlib

/-!
Shallow embedding of the Farkle rules engine (`farkle_ai/game/rules.py`,
`farkle_ai/game/state.py`, `farkle_ai/game/actions.py`,
`farkle_ai/game/engine.py`).

Python tuples of die values are modelled as `List Nat`, Python `dict`s as
association lists with insertion-order update semantics, `collections.Counter`
comparisons via `List.count`, and Python exceptions (`ValueError`,
`RuntimeError`, `IndexError`) via `Except String`.  The injected random
source `rng` is modelled as a function `Nat → Nat` giving the successive die
values the caller-controlled generator would produce.
-/

set_option maxRecDepth 10000

/-- Decidable equality for `Except`, needed to `decide` concrete runs. -/
instance exceptDecEq {ε α : Type} [DecidableEq ε] [DecidableEq α] :
    DecidableEq (Except ε α) := fun a b =>
  match a, b with
  | .ok x, .ok y =>
      if h : x = y then .isTrue (by rw [h]) else
        .isFalse (fun hc => by cases hc; exact h rfl)
  | .error x, .error y =>
      if h : x = y then .isTrue (by rw [h]) else
        .isFalse (fun hc => by cases hc; exact h rfl)
  | .ok _, .error _ => .isFalse (fun hc => by cases hc)
  | .error _, .ok _ => .isFalse (fun hc => by cases hc)

/-! ## rules.py : constants and the base pattern catalog -/

abbrev Pattern := List Nat

/-- `ScoringPattern` dataclass from rules.py. -/
structure ScoringPattern where
  pattern : Pattern
  score : Nat
deriving DecidableEq, Repr

def DEFAULT_SCORE_TO_WIN : Nat := 5000
def MAX_DICE_COUNT : Nat := 6
def MAX_DIE_VALUE : Nat := 6
def DEFAULT_PLAYER_COUNT : Nat := 2
def MAX_PATTERN_SCORE : Nat := 8000

/-- `BASE_SCORING_PATTERNS` from rules.py, in declaration order. -/
def BASE_SCORING_PATTERNS : List ScoringPattern := [
  ⟨[1, 1, 1, 1, 1, 1], 8000⟩, ⟨[2, 2, 2, 2, 2, 2], 1600⟩,
  ⟨[3, 3, 3, 3, 3, 3], 2400⟩, ⟨[4, 4, 4, 4, 4, 4], 3200⟩,
  ⟨[5, 5, 5, 5, 5, 5], 4000⟩, ⟨[6, 6, 6, 6, 6, 6], 4800⟩,
  ⟨[1, 1, 1, 1, 1], 4000⟩, ⟨[2, 2, 2, 2, 2], 800⟩,
  ⟨[3, 3, 3, 3, 3], 1200⟩, ⟨[4, 4, 4, 4, 4], 1600⟩,
  ⟨[5, 5, 5, 5, 5], 2000⟩, ⟨[6, 6, 6, 6, 6], 2400⟩,
  ⟨[1, 1, 1, 1], 2000⟩, ⟨[2, 2, 2, 2], 400⟩,
  ⟨[3, 3, 3, 3], 600⟩, ⟨[4, 4, 4, 4], 800⟩,
  ⟨[5, 5, 5, 5], 1000⟩, ⟨[6, 6, 6, 6], 1200⟩,
  ⟨[1, 2, 3, 4, 5, 6], 1500⟩, ⟨[1, 2, 3, 4, 5], 500⟩, ⟨[2, 3, 4, 5, 6], 750⟩,
  ⟨[1, 1, 1], 1000⟩, ⟨[2, 2, 2], 200⟩, ⟨[3, 3, 3], 300⟩,
  ⟨[4, 4, 4], 400⟩, ⟨[5, 5, 5], 500⟩, ⟨[6, 6, 6], 600⟩,
  ⟨[1], 100⟩, ⟨[5], 50⟩]

/-- Python `sorted` on a list of die values. -/
def pySorted (l : List Nat) : List Nat := List.insertionSort (· ≤ ·) l

/-! ## Python dict / defaultdict association-list model -/

/-- dict keyed by patterns: lookup, `none` when absent. -/
def pdictGet : List (Pattern × Nat) → Pattern → Option Nat
  | [], _ => none
  | kv :: rest, key => if kv.1 = key then some kv.2 else pdictGet rest key

/-- Python `d.get(key, dflt)`. -/
def pdictGetD (d : List (Pattern × Nat)) (key : Pattern) (dflt : Nat) : Nat :=
  (pdictGet d key).getD dflt

/-- Python `d[key] = v`: update in place when present, else append
(insertion-order semantics of Python dicts). -/
def pdictSet : List (Pattern × Nat) → Pattern → Nat → List (Pattern × Nat)
  | [], key, v => [(key, v)]
  | kv :: rest, key, v =>
      if kv.1 = key then (key, v) :: rest else kv :: pdictSet rest key v

/-- outer `defaultdict(dict)` keyed by pattern length. -/
def ddGet : List (Nat × List (Pattern × Nat)) → Nat → List (Pattern × Nat)
  | [], _ => []
  | kv :: rest, key => if kv.1 = key then kv.2 else ddGet rest key

def ddHas : List (Nat × List (Pattern × Nat)) → Nat → Bool
  | [], _ => false
  | kv :: rest, key => kv.1 = key || ddHas rest key

/-- `defaultdict.__getitem__` key creation: a missing key is appended with an
empty dict, established keys keep their position. -/
def ddTouch (dp : List (Nat × List (Pattern × Nat))) (key : Nat) :
    List (Nat × List (Pattern × Nat)) :=
  if ddHas dp key then dp else dp ++ [(key, [])]

def ddSet : List (Nat × List (Pattern × Nat)) → Nat → List (Pattern × Nat) →
    List (Nat × List (Pattern × Nat))
  | [], key, v => [(key, v)]
  | kv :: rest, key, v =>
      if kv.1 = key then (key, v) :: rest else kv :: ddSet rest key v

/-! ## rules.py : scorable_patterns_table DP -/

/-- Seeding step `dp[count][pattern] = score` of `scorable_patterns_table`. -/
def seedEntry (dp : List (Nat × List (Pattern × Nat))) (sp : ScoringPattern) :
    List (Nat × List (Pattern × Nat)) :=
  let dp := ddTouch dp sp.pattern.length
  ddSet dp sp.pattern.length
    (pdictSet (ddGet dp sp.pattern.length) sp.pattern sp.score)

/-- `if score > dp[count].get(pattern, 0): dp[count][pattern] = score`
(the read touches `dp[count]` even when no write happens). -/
def tableRelax (dp : List (Nat × List (Pattern × Nat))) (count : Nat)
    (pat : Pattern) (score : Nat) : List (Nat × List (Pattern × Nat)) :=
  let dp := ddTouch dp count
  if pdictGetD (ddGet dp count) pat 0 < score then
    ddSet dp count (pdictSet (ddGet dp count) pat score)
  else dp

/-- Inner double loop of `scorable_patterns_table` for a fixed `count`,
`count_a` split: iterate the snapshots of `dp[count_a]` and `dp[count_b]`. -/
def combinePairs (dp : List (Nat × List (Pattern × Nat))) (count count_a : Nat) :
    List (Nat × List (Pattern × Nat)) :=
  let count_b := count - count_a
  let dp := ddTouch dp count_a
  let itemsA := ddGet dp count_a
  let dp := ddTouch dp count_b
  let itemsB := ddGet dp count_b
  itemsA.foldl (fun dp pa =>
    itemsB.foldl (fun dp pb =>
      tableRelax dp count (pySorted (pa.1 ++ pb.1)) (pa.2 + pb.2)) dp) dp

/-- The `dp` table of `scorable_patterns_table` after seeding and the
`for count in range(1, MAX_DICE_COUNT + 1)` combination loop. -/
def buildTable : List (Nat × List (Pattern × Nat)) :=
  (List.range' 1 MAX_DICE_COUNT).foldl (fun dp count =>
      (List.range' 1 (count / 2)).foldl
        (fun dp count_a => combinePairs dp count count_a) dp)
    (BASE_SCORING_PATTERNS.foldl seedEntry [])

/-- `scorable_patterns_table()`: the flattening dict comprehension over
`dp.values()`. -/
def scorable_patterns_table : List (Pattern × Nat) :=
  buildTable.foldl
    (fun acc kd => kd.2.foldl (fun acc pv => pdictSet acc pv.1 pv.2) acc) []

/-- `pattern_score(dice)`: table lookup with default 0. -/
def pattern_score (dice : Pattern) : Nat :=
  pdictGetD scorable_patterns_table dice 0

/-- `contains_pattern(a, b)`: `Counter(a) - Counter(b)` has no negative entry;
equivalently every value occurring in either list satisfies
`count in b ≤ count in a`. -/
def contains_pattern (a b : Pattern) : Bool :=
  (a ++ b).all (fun v => decide (b.count v ≤ a.count v))

/-- `scorable_patterns(dice)`: all table entries contained in the roll, in
table iteration order. -/
def scorable_patterns (dice : Pattern) : List ScoringPattern :=
  (scorable_patterns_table.filter (fun pv => contains_pattern dice pv.1)).map
    (fun pv => ⟨pv.1, pv.2⟩)

/-- Loop body of `scorable_patterns_by_length`: reading
`by_length[len(p)].score` raises `IndexError` when `len(p)` is outside the
6-slot list, else the slot is replaced on a strictly larger score. -/
def byLengthGo : List ScoringPattern → List ScoringPattern →
    Except String (List ScoringPattern)
  | acc, [] => .ok acc
  | acc, sp :: rest =>
      match acc.get? sp.pattern.length with
      | none => .error "IndexError"
      | some cur =>
          byLengthGo (if cur.score < sp.score then
            acc.set sp.pattern.length sp else acc) rest

/-- `scorable_patterns_by_length(dice)`. -/
def scorable_patterns_by_length (dice : Pattern) :
    Except String (List ScoringPattern) :=
  byLengthGo (List.replicate MAX_DICE_COUNT ⟨[], 0⟩) (scorable_patterns dice)

/-! ## state.py : Parameters, TurnState, GameState -/

/-- `Parameters` dataclass from state.py. -/
structure Parameters where
  player_count : Nat
  score_to_win : Nat
  max_dice_count : Nat
  max_die_value : Nat
deriving DecidableEq, Repr

/-- The all-defaults `Parameters()` value. -/
def defaultParameters : Parameters :=
  ⟨DEFAULT_PLAYER_COUNT, DEFAULT_SCORE_TO_WIN, MAX_DICE_COUNT, MAX_DIE_VALUE⟩

/-- `TurnState` dataclass from state.py. -/
structure TurnState where
  next_roll_dice_count : Nat
  score : Nat
  rolled_dice : List Nat
  has_rolled : Bool
  has_ended : Bool
deriving DecidableEq, Repr

/-- `TurnState.select_pattern`; the Python default argument
`max_dice_count=MAX_DICE_COUNT` is passed explicitly by callers here. -/
def TurnState.select_pattern (ts : TurnState) (sp : ScoringPattern)
    (max_dice_count : Nat) : Except String TurnState :=
  if ts.has_ended then
    .error "RuntimeError: Can not select a pattern when turn has ended"
  else if !ts.has_rolled then
    .error "RuntimeError: Can not select a pattern when player has not rolled"
  else if ts.rolled_dice.length < sp.pattern.length then
    .error "ValueError: Selected pattern requires more dice than available"
  else if !contains_pattern ts.rolled_dice sp.pattern then
    .error "ValueError: Rolled dice do not contain selected pattern"
  else
    let remaining_dice_count := ts.rolled_dice.length - sp.pattern.length
    let new_dice_count :=
      if 0 < remaining_dice_count then remaining_dice_count else max_dice_count
    .ok ⟨new_dice_count, ts.score + sp.score, ts.rolled_dice, false, false⟩

/-- `TurnState.roll_dice`; `rng` models the injected random source as the
stream of die values (in `[1, max_die_value]`) it would produce, so drawing
`k` dice yields `(List.range k).map rng`.  `max_die_value` only parametrizes
the random source and is otherwise unused, as in the Python code. -/
def TurnState.roll_dice (ts : TurnState) (rng : Nat → Nat)
    (max_dice_count : Nat) (max_die_value : Nat) : Except String TurnState :=
  if ts.has_ended then
    .error "RuntimeError: Can not roll dice when turn has ended"
  else if ts.has_rolled then
    .error "RuntimeError: Can not roll dice when dice are already rolled"
  else
    let new_dice_count :=
      if ts.next_roll_dice_count = 0 then max_dice_count
      else ts.next_roll_dice_count
    let new_rolled_dice := (List.range new_dice_count).map rng
    .ok ⟨new_dice_count, ts.score, new_rolled_dice, true, false⟩

/-- `TurnState.pass_turn`. -/
def TurnState.pass_turn (ts : TurnState) : Except String TurnState :=
  if ts.has_ended then
    .error "RuntimeError: Can not pass an ended turn"
  else
    .ok ⟨0, 0, [], false, true⟩

/-- `TurnState.end_turn`. -/
def TurnState.end_turn (ts : TurnState) : Except String TurnState :=
  if ts.has_ended then
    .error "RuntimeError: Can not end an already ended turn"
  else if ts.has_rolled then
    .error "RuntimeError: Can not end turn after rolling"
  else
    .ok ⟨0, ts.score, [], false, true⟩

/-- `GameState` dataclass from state.py. -/
structure GameState where
  parameters : Parameters
  turn_state : TurnState
  player_scores : List Nat
  current_player : Nat
  winner : Option Nat
  turn : Nat
  is_quit : Bool
deriving DecidableEq, Repr

/-- `GameState.select_pattern`; every `GameState` transition rebuilds the
dataclass without passing `is_quit`, whose constructor default is `False`. -/
def GameState.select_pattern (s : GameState) (sp : ScoringPattern) :
    Except String GameState :=
  (s.turn_state.select_pattern sp MAX_DICE_COUNT).map fun ts =>
    ⟨s.parameters, ts, s.player_scores, s.current_player, s.winner, s.turn,
      false⟩

/-- `GameState.roll_dice`. -/
def GameState.roll_dice (s : GameState) (rng : Nat → Nat) :
    Except String GameState :=
  (s.turn_state.roll_dice rng s.parameters.max_dice_count
      s.parameters.max_die_value).map fun ts =>
    ⟨s.parameters, ts, s.player_scores, s.current_player, s.winner, s.turn,
      false⟩

/-- `GameState.pass_turn`. -/
def GameState.pass_turn (s : GameState) : Except String GameState :=
  (s.turn_state.pass_turn).map fun ts =>
    ⟨s.parameters, ts, s.player_scores, s.current_player, s.winner, s.turn,
      false⟩

/-- `GameState.end_turn`: banks the turn score into
`player_scores[current_player]` (an out-of-range index raises) and recomputes
`winner` from that single total. -/
def GameState.end_turn (s : GameState) : Except String GameState :=
  match s.turn_state.end_turn with
  | .error e => .error e
  | .ok ts =>
      if s.current_player < s.player_scores.length then
        let total := s.player_scores.getD s.current_player 0 + s.turn_state.score
        let new_player_scores := s.player_scores.set s.current_player total
        let new_winner :=
          if s.parameters.score_to_win ≤ total then some s.current_player
          else none
        .ok ⟨s.parameters, ts, new_player_scores, s.current_player, new_winner,
          s.turn, false⟩
      else .error "IndexError"

/-- `GameState.start_turn`; Python's `%` on a positive `player_count`
coincides with `Nat.mod` (all uses below have `player_count = 2`). -/
def GameState.start_turn (s : GameState) (max_dice_count : Nat) : GameState :=
  let new_turn_state : TurnState := ⟨max_dice_count, 0, [], false, false⟩
  let new_current_player := (s.current_player + 1) % s.parameters.player_count
  ⟨s.parameters, new_turn_state, s.player_scores, new_current_player, s.winner,
    if new_current_player = 0 then s.turn + 1 else s.turn, false⟩

/-! ## actions.py and engine.py -/

/-- The closed set of engine actions from actions.py (`Action` itself is
taken by Mathlib, hence the `GameAction` name). -/
inductive GameAction where
  | ContinueAction (pat : Pattern)
  | BankAction (pat : Pattern)
  | PassTurnAction
  | QuitAction
deriving DecidableEq, Repr

/-- `apply_action` from engine.py.  The Python body is a chain of
`isinstance` tests: Continue and Bank both select the pattern first (after
the `pattern_score == 0` validation), Continue then re-rolls, Bank ends the
turn, starts the next one and rolls, Pass passes, starts and rolls, and a
`QuitAction` matches no branch, returning the state unchanged. -/
def apply_action (state : GameState) (action : GameAction) (rng : Nat → Nat) :
    Except String GameState :=
  match action with
  | .ContinueAction pat =>
      if pattern_score pat = 0 then
        .error "ValueError: Action pattern must be a valid scoring pattern"
      else do
        let s1 ← state.select_pattern ⟨pat, pattern_score pat⟩
        s1.roll_dice rng
  | .BankAction pat =>
      if pattern_score pat = 0 then
        .error "ValueError: Action pattern must be a valid scoring pattern"
      else do
        let s1 ← state.select_pattern ⟨pat, pattern_score pat⟩
        let s2 ← s1.end_turn
        (s2.start_turn MAX_DICE_COUNT).roll_dice rng
  | .PassTurnAction => do
      let s1 ← state.pass_turn
      (s1.start_turn MAX_DICE_COUNT).roll_dice rng
  | .QuitAction => .ok state

/-! ## Finite checks over the pattern table and concrete states used in the
claims -/

/-- Superadditivity check over every pair of table entries whose combined
length still fits a roll: the table's value at the sorted union is at least
the sum of the two entries' values. -/
def superadditiveCheck : Bool :=
  scorable_patterns_table.all fun pa =>
    scorable_patterns_table.all fun pb =>
      !(decide (pa.1.length + pb.1.length ≤ 6)) ||
        decide (pa.2 + pb.2 ≤ pattern_score (pySorted (pa.1 ++ pb.1)))

/-- Every table entry has a pattern of length 1..6 and a positive score. -/
def tableEntriesCheck : Bool :=
  scorable_patterns_table.all fun pv =>
    decide (1 ≤ pv.1.length) && decide (pv.1.length ≤ 6) && decide (0 < pv.2)

/-- A state in which player 0 has already been declared the winner: player
scores `[5000, 100]`, player 1 mid-roll holding a single die showing 1. -/
def winnerDeclaredState : GameState :=
  ⟨defaultParameters, ⟨6, 0, [1], true, false⟩, [5000, 100], 1, some 0, 3,
    false⟩

/-- A fresh two-player state before the first roll of a turn. -/
def freshState : GameState :=
  ⟨defaultParameters, ⟨6, 0, [], false, false⟩, [0, 0], 0, none, 0, false⟩

/-- A random source whose first six draws are the farkle roll
`2, 2, 3, 3, 4, 4` (no 1, no 5, no triple, no straight). -/
def farkleRng : Nat → Nat := fun i => [2, 2, 3, 3, 4, 4].getD i 1

/-- The state `apply_action` returns for `PassTurnAction` on `freshState`
under `farkleRng`: player 1 left mid-roll on a farkled roll. -/
def farkledResultState : GameState :=
  ⟨defaultParameters, ⟨6, 0, [2, 2, 3, 3, 4, 4], true, false⟩, [0, 0], 1,
    none, 0, false⟩

/-- A banked-but-not-yet-ended turn for player 1 while player 0 is already
the declared winner: used to exercise `end_turn` after a win. -/
def winnerDeclaredBankableState : GameState :=
  ⟨defaultParameters, ⟨1, 100, [1, 5], false, false⟩, [5000, 100], 1, some 0,
    3, false⟩

/-- The value `scorable_patterns_by_length` returns for the roll
`(1, 1, 1, 5, 5, 2)`. -/
def byLengthList : List ScoringPattern :=
  [⟨[], 0⟩, ⟨[1], 100⟩, ⟨[1, 1], 200⟩, ⟨[1, 1, 1], 1000⟩,
   ⟨[1, 1, 1, 5], 1050⟩, ⟨[1, 1, 1, 5, 5], 1100⟩]

/-! ## Helper lemmas -/

theorem pdictGet_mem {d : List (Pattern × Nat)} {k : Pattern} {v : Nat}
    (h : pdictGet d k = some v) : (k, v) ∈ d := by
  induction d with
  | nil => simp [pdictGet] at h
  | cons kv rest ih =>
      rw [pdictGet] at h
      by_cases hk : kv.1 = k
      · rw [if_pos hk] at h
        cases h
        subst hk
        exact List.mem_cons_self _ _
      · rw [if_neg hk] at h
        exact List.mem_cons_of_mem _ (ih h)

theorem pattern_score_mem {p : Pattern} (h : 0 < pattern_score p) :
    (p, pattern_score p) ∈ scorable_patterns_table := by
  unfold pattern_score pdictGetD at h ⊢
  cases hg : pdictGet scorable_patterns_table p with
  | none => rw [hg] at h; simp at h
  | some v => simpa using pdictGet_mem hg

theorem mem_scorable_patterns {dice : Pattern} {p : ScoringPattern}
    (h : p ∈ scorable_patterns dice) :
    (p.pattern, p.score) ∈ scorable_patterns_table ∧
      contains_pattern dice p.pattern = true := by
  unfold scorable_patterns at h
  rcases List.mem_map.mp h with ⟨pv, hpv, heq⟩
  rcases List.mem_filter.mp hpv with ⟨hmem, hcond⟩
  cases heq
  exact ⟨hmem, hcond⟩

theorem tableEntriesCheck_eq_true : tableEntriesCheck = true := by decide

theorem superadditiveCheck_eq_true : superadditiveCheck = true := by decide

theorem scorable_pattern_length_bounds {dice : Pattern} {p : ScoringPattern}
    (h : p ∈ scorable_patterns dice) :
    1 ≤ p.pattern.length ∧ p.pattern.length ≤ 6 := by
  have hmem := (mem_scorable_patterns h).1
  have hc := tableEntriesCheck_eq_true
  unfold tableEntriesCheck at hc
  rw [List.all_eq_true] at hc
  have := hc _ hmem
  simp only [Bool.and_eq_true, decide_eq_true_eq] at this
  exact ⟨this.1.1, this.1.2⟩

/-! ## Claim theorems -/

/-- C4 (confirmed): for every dice multiset `d` of length 0..6 that is the
multiset union `d = a ∪ b` of two legal patterns `a` and `b` (nonzero entries
of the scorable-patterns table), `scoreOf(d) ≥ scoreOf(a) + scoreOf(b)`,
where `scoreOf` is `pattern_score` and the canonical form of the union is the
sorted concatenation. -/
theorem C4_score_superadditive (a b : Pattern)
    (ha : 0 < pattern_score a) (hb : 0 < pattern_score b)
    (hlen : a.length + b.length ≤ 6) :
    pattern_score a + pattern_score b ≤ pattern_score (pySorted (a ++ b)) := by
  have hma := pattern_score_mem ha
  have hmb := pattern_score_mem hb
  have hc := superadditiveCheck_eq_true
  unfold superadditiveCheck at hc
  rw [List.all_eq_true] at hc
  have h1 := hc _ hma
  rw [List.all_eq_true] at h1
  have h2 := h1 _ hmb
  simp only [Bool.or_eq_true, Bool.not_eq_true', decide_eq_true_eq,
    decide_eq_false_iff_not] at h2
  rcases h2 with h2 | h2
  · exact absurd hlen h2
  · exact h2

/-- Witness for C4 at `a = (1,)`, `b = (5,)`. -/
theorem C4_score_superadditive_witness :
    pattern_score [1] + pattern_score [5] ≤
      pattern_score (pySorted ([1] ++ [5])) :=
  C4_score_superadditive [1] [5] (by decide) (by decide) (by decide)

/-- C2 (amended): `apply_action` matches `QuitAction` against no branch and
returns the state unchanged — scores and turn score untouched but `is_quit`
stays `false` — and the engine has no winner/quit check at all, so no action
ever fails with a `GameAlreadyOver` error. -/
theorem C2_quit_action_is_noop (s : GameState) (rng : Nat → Nat) :
    apply_action s GameAction.QuitAction rng = .ok s := rfl

/-- C2 counterexample: applying `Quit` to the fresh state leaves `is_quit`
false instead of setting it to true. -/
theorem C2_quit_counterexample :
    apply_action freshState GameAction.QuitAction (fun _ => 1) =
      .ok freshState ∧ freshState.is_quit = false :=
  ⟨rfl, rfl⟩

/-- C1 (amended): `apply_action` and `GameState.end_turn` perform no
terminal-state check: ending a turn always adds the turn score to the current
player's entry of `player_scores` and recomputes `winner` from that single
new total — `current_player` when it reaches `score_to_win`, else `none` —
discarding any previously set winner, so after a declared winner further
banking still changes scores and can unset the winner. -/
theorem C1_end_turn_ignores_previous_winner (s : GameState)
    (h1 : s.turn_state.has_ended = false)
    (h2 : s.turn_state.has_rolled = false)
    (h3 : s.current_player < s.player_scores.length) :
    s.end_turn = .ok ⟨s.parameters, ⟨0, s.turn_state.score, [], false, true⟩,
      s.player_scores.set s.current_player
        (s.player_scores.getD s.current_player 0 + s.turn_state.score),
      s.current_player,
      (if s.parameters.score_to_win ≤
          s.player_scores.getD s.current_player 0 + s.turn_state.score then
        some s.current_player else none),
      s.turn, false⟩ := by
  simp [GameState.end_turn, TurnState.end_turn, h1, h2, h3]

/-- Witness for C1's amended theorem: player 1 ends a 100-point turn while
player 0 is already the declared winner; the winner field is recomputed to
`none` and the scores move to `[5000, 200]`. -/
theorem C1_end_turn_ignores_previous_winner_witness :
    winnerDeclaredBankableState.end_turn = .ok ⟨defaultParameters,
      ⟨0, 100, [], false, true⟩, [5000, 200], 1, none, 3, false⟩ :=
  C1_end_turn_ignores_previous_winner winnerDeclaredBankableState rfl rfl
    (by decide)

/-- C1 counterexample: from a state with `winner = some 0` and scores
`[5000, 100]`, banking `(1,)` as player 1 changes `player_scores` to
`[5000, 200]` and resets `winner` to `none`. -/
theorem C1_winner_unset_counterexample :
    winnerDeclaredState.winner = some 0 ∧
    winnerDeclaredState.player_scores = [5000, 100] ∧
    apply_action winnerDeclaredState (GameAction.BankAction [1])
        (fun _ => 2) =
      .ok ⟨defaultParameters, ⟨6, 0, [2, 2, 2, 2, 2, 2], true, false⟩,
        [5000, 200], 0, none, 4, false⟩ :=
  ⟨rfl, rfl, by decide⟩

/-- C3 (amended): `apply_action` does not auto-advance on a farkle.  After a
`Pass` (and likewise after the roll of a Continue or Bank) it performs exactly
one roll drawn directly from the injected random source and returns, with no
check of the new roll; when that roll has no scoring sub-pattern the returned
state leaves the next player mid-roll on a farkled roll.  The farkle
auto-pass loop lives in the callers (environment, GUI), not in `apply`. -/
theorem C3_pass_rolls_once_without_farkle_check (s : GameState)
    (rng : Nat → Nat) (h : s.turn_state.has_ended = false) :
    apply_action s GameAction.PassTurnAction rng =
      .ok ⟨s.parameters, ⟨6, 0, (List.range 6).map rng, true, false⟩,
        s.player_scores, (s.current_player + 1) % s.parameters.player_count,
        s.winner,
        (if (s.current_player + 1) % s.parameters.player_count = 0 then
          s.turn + 1 else s.turn), false⟩ := by
  simp [apply_action, GameState.pass_turn, TurnState.pass_turn, h,
    GameState.start_turn, GameState.roll_dice, TurnState.roll_dice,
    MAX_DICE_COUNT, Except.map, Bind.bind, Except.bind]

/-- Witness for C3's amended theorem: passing from the fresh state under a
random source that yields `2, 2, 3, 3, 4, 4` returns that farkled roll. -/
theorem C3_pass_rolls_once_witness :
    apply_action freshState GameAction.PassTurnAction farkleRng =
      .ok farkledResultState :=
  C3_pass_rolls_once_without_farkle_check freshState farkleRng rfl

/-- C3 counterexample: `apply` returns a state that is mid-roll
(`has_rolled = true`) on a roll with no scoring sub-pattern, which the claim
says never happens. -/
theorem C3_farkle_counterexample :
    apply_action freshState GameAction.PassTurnAction farkleRng =
      .ok farkledResultState ∧
    farkledResultState.turn_state.has_rolled = true ∧
    scorable_patterns farkledResultState.turn_state.rolled_dice = [] :=
  ⟨by decide, rfl, by decide⟩

/-- C5 (amended): for the roll `(1,1,1,5,5,2)` the legal scoring patterns
include `(1,1,1)` → 1000, `(1,)` → 100, `(5,)` → 50 and `(1,1,1,5,5)` → 1100,
and also the pair `(5,5)` — worth 100 (two single 5s combined), not 0. -/
theorem C5_roll_patterns :
    (⟨[1, 1, 1], 1000⟩ : ScoringPattern) ∈ scorable_patterns [1, 1, 1, 5, 5, 2] ∧
    (⟨[1], 100⟩ : ScoringPattern) ∈ scorable_patterns [1, 1, 1, 5, 5, 2] ∧
    (⟨[5], 50⟩ : ScoringPattern) ∈ scorable_patterns [1, 1, 1, 5, 5, 2] ∧
    (⟨[1, 1, 1, 5, 5], 1100⟩ : ScoringPattern) ∈ scorable_patterns [1, 1, 1, 5, 5, 2] ∧
    (⟨[5, 5], 100⟩ : ScoringPattern) ∈ scorable_patterns [1, 1, 1, 5, 5, 2] := by
  decide

/-- C5 counterexample: `(5,5)` is a scoring pattern worth 100, contradicting
the claimed `scoreOf((5,5)) = 0`. -/
theorem C5_five_pair_counterexample :
    pattern_score [5, 5] = 100 ∧ pattern_score [5, 5] ≠ 0 := by
  refine ⟨by decide, by decide⟩

/-- C7 (amended): selecting a legal pattern contained in the rolled dice adds
the pattern's score to `score` and resets `has_rolled` to `false`, but does
NOT clear `rolled_dice`: the new state keeps the previous roll (it is only
replaced by the next roll or cleared by `pass_turn` / `end_turn`). -/
theorem C7_select_pattern_keeps_rolled_dice (ts : TurnState)
    (sp : ScoringPattern) (h1 : ts.has_ended = false)
    (h2 : ts.has_rolled = true)
    (h3 : sp.pattern.length ≤ ts.rolled_dice.length)
    (h4 : contains_pattern ts.rolled_dice sp.pattern = true) :
    ts.select_pattern sp 6 =
      .ok ⟨(if 0 < ts.rolled_dice.length - sp.pattern.length then
          ts.rolled_dice.length - sp.pattern.length else 6),
        ts.score + sp.score, ts.rolled_dice, false, false⟩ := by
  simp [TurnState.select_pattern, h1, h2, h4, Nat.not_lt.mpr h3]

/-- Witness for C7's amended theorem: selecting `(1,)` out of the roll
`(1, 5)` keeps `rolled_dice = (1, 5)`. -/
theorem C7_select_pattern_keeps_rolled_dice_witness :
    TurnState.select_pattern ⟨6, 0, [1, 5], true, false⟩ ⟨[1], 100⟩ 6 =
      .ok ⟨1, 100, [1, 5], false, false⟩ :=
  C7_select_pattern_keeps_rolled_dice ⟨6, 0, [1, 5], true, false⟩ ⟨[1], 100⟩
    rfl rfl (by decide) (by decide)

/-- C7 counterexample: after selecting `(1,)` from the roll `(1, 5)` the
rolled dice are still `(1, 5)`, not cleared to the empty tuple. -/
theorem C7_rolled_dice_not_cleared_counterexample :
    TurnState.select_pattern ⟨6, 0, [1, 5], true, false⟩ ⟨[1], 100⟩ 6 =
      .ok ⟨1, 100, [1, 5], false, false⟩ ∧ ([1, 5] : List Nat) ≠ [] :=
  ⟨by decide, by decide⟩

/-- C8 (confirmed): `select_pattern` sets `next_roll_dice_count` to the
number of remaining dice when some rolled dice remain, and to
`max_dice_count` (6), not 0, when the pattern uses every rolled die. -/
theorem C8_hot_dice_dice_count (ts : TurnState) (sp : ScoringPattern)
    (h1 : ts.has_ended = false) (h2 : ts.has_rolled = true)
    (h3 : sp.pattern.length ≤ ts.rolled_dice.length)
    (h4 : contains_pattern ts.rolled_dice sp.pattern = true) :
    (ts.select_pattern sp 6).map TurnState.next_roll_dice_count =
      .ok (if 0 < ts.rolled_dice.length - sp.pattern.length then
        ts.rolled_dice.length - sp.pattern.length else 6) := by
  simp [TurnState.select_pattern, h1, h2, h4, Nat.not_lt.mpr h3, Except.map]

/-- Witness for C8: selecting the full roll `(1, 5)` (hot dice) resets the
next roll to 6 dice. -/
theorem C8_hot_dice_dice_count_witness :
    (TurnState.select_pattern ⟨6, 0, [1, 5], true, false⟩
        ⟨[1, 5], 150⟩ 6).map TurnState.next_roll_dice_count = .ok 6 :=
  C8_hot_dice_dice_count ⟨6, 0, [1, 5], true, false⟩ ⟨[1, 5], 150⟩
    rfl rfl (by decide) (by decide)

theorem all_congr_perm {α : Type} (f : α → Bool) {l l' : List α}
    (h : l.Perm l') : l.all f = l'.all f := by
  induction h with
  | nil => rfl
  | cons x _ ih => simp [ih]
  | swap x y l => simp [List.all_cons, Bool.and_left_comm]
  | trans _ _ ih1 ih2 => rw [ih1, ih2]

theorem contains_pattern_perm {a b : List Nat} (p : List Nat)
    (h : a.Perm b) : contains_pattern a p = contains_pattern b p := by
  unfold contains_pattern
  have hf : (fun v => decide (p.count v ≤ a.count v)) =
      (fun v => decide (p.count v ≤ b.count v)) :=
    funext fun v => by rw [h.count_eq]
  rw [hf]
  exact all_congr_perm _ (h.append_right p)

/-- C9 (amended): `scorable_patterns` is invariant under permutation of the
roll and sorting is idempotent, and scoring is permutation-invariant on
canonicalized (sorted) inputs; however the raw `pattern_score` lookup is NOT
permutation-invariant, since it is an exact dict lookup keyed by the sorted
tuple (e.g. `(5,1)` scores 0 while `(1,5)` scores 150). -/
theorem C9_canonicalization :
    (∀ a b : List Nat, a.Perm b →
      scorable_patterns a = scorable_patterns b) ∧
    (∀ l : List Nat, pySorted (pySorted l) = pySorted l) ∧
    (∀ a b : List Nat, a.Perm b →
      pattern_score (pySorted a) = pattern_score (pySorted b)) := by
  refine ⟨?_, ?_, ?_⟩
  · intro a b h
    unfold scorable_patterns
    have hcg : ∀ pv ∈ scorable_patterns_table,
        contains_pattern a pv.1 = contains_pattern b pv.1 :=
      fun pv _ => contains_pattern_perm pv.1 h
    rw [List.filter_congr hcg]
  · intro l
    exact List.Sorted.insertionSort_eq (List.sorted_insertionSort _ _)
  · intro a b h
    have hss : pySorted a = pySorted b := by
      unfold pySorted
      exact List.eq_of_perm_of_sorted
        (((List.perm_insertionSort _ a).trans h).trans
          (List.perm_insertionSort _ b).symm)
        (List.sorted_insertionSort _ a) (List.sorted_insertionSort _ b)
    rw [hss]

/-- Witness for C9's amended theorem at the permutation `(5,1) ~ (1,5)` and
the roll `(3,1,2)`. -/
theorem C9_canonicalization_witness :
    scorable_patterns [5, 1] = scorable_patterns [1, 5] ∧
    pySorted (pySorted [3, 1, 2]) = pySorted [3, 1, 2] ∧
    pattern_score (pySorted [5, 1]) = pattern_score (pySorted [1, 5]) :=
  ⟨C9_canonicalization.1 [5, 1] [1, 5] (by decide),
   C9_canonicalization.2.1 [3, 1, 2],
   C9_canonicalization.2.2 [5, 1] [1, 5] (by decide)⟩

/-- C9 counterexample: `(1,5)` and `(5,1)` are permutations of each other but
`pattern_score` returns 150 for the former and 0 for the latter. -/
theorem C9_unsorted_lookup_counterexample :
    pattern_score [1, 5] = 150 ∧ pattern_score [5, 1] = 0 ∧
    ([1, 5] : List Nat).Perm [5, 1] :=
  ⟨by decide, by decide, by decide⟩

theorem getD_of_get? {α : Type} {l : List α} {n : Nat} {a : α} (d : α)
    (h : l.get? n = some a) : l.getD n d = a := by
  rw [show l.getD n d = (l.get? n).getD d from rfl, h]
  rfl

theorem lt_of_get?_eq_some {α : Type} {l : List α} {n : Nat} {a : α}
    (h : l.get? n = some a) : n < l.length := by
  by_contra hn
  rw [List.get?_eq_none.mpr (Nat.le_of_not_lt hn)] at h
  cases h

theorem getD_set_self {α : Type} (l : List α) {n : Nat} (a d : α)
    (h : n < l.length) : (l.set n a).getD n d = a :=
  getD_of_get? d (List.get?_set_eq_of_lt a h)

theorem getD_set_ne {α : Type} (l : List α) {m n : Nat} (a d : α)
    (h : m ≠ n) : (l.set m a).getD n d = l.getD n d := by
  rw [show (l.set m a).getD n d = ((l.set m a).get? n).getD d from rfl,
    List.get?_set_ne a l h]
  rfl

theorem getD_replicate {α : Type} (d : α) :
    ∀ (n i : Nat), (List.replicate n d).getD i d = d
  | 0, _ => rfl
  | _ + 1, 0 => rfl
  | n + 1, i + 1 => getD_replicate d n i

theorem byLengthGo_cons_none {acc : List ScoringPattern}
    {sp : ScoringPattern} {rest : List ScoringPattern}
    (hg : acc.get? sp.pattern.length = none) :
    byLengthGo acc (sp :: rest) = .error "IndexError" := by
  rw [byLengthGo, hg]

theorem byLengthGo_cons_some {acc : List ScoringPattern}
    {sp : ScoringPattern} {rest : List ScoringPattern} {cur : ScoringPattern}
    (hg : acc.get? sp.pattern.length = some cur) :
    byLengthGo acc (sp :: rest) =
      byLengthGo (if cur.score < sp.score then
        acc.set sp.pattern.length sp else acc) rest := by
  rw [byLengthGo, hg]

/-- Invariant of the `scorable_patterns_by_length` loop: on a successful run
the slot array keeps its length, every changed slot holds one of the
processed patterns stored at the index equal to that pattern's length, every
processed pattern's score is dominated by the slot at its length, and slot
scores never decrease. -/
theorem byLengthGo_ok_spec (d : ScoringPattern) :
    ∀ (ps acc res : List ScoringPattern), byLengthGo acc ps = .ok res →
      res.length = acc.length ∧
      (∀ i, i < acc.length →
        (res.getD i d = acc.getD i d ∨
          (res.getD i d ∈ ps ∧ (res.getD i d).pattern.length = i))) ∧
      (∀ p ∈ ps, p.pattern.length < acc.length ∧
        p.score ≤ (res.getD p.pattern.length d).score) ∧
      (∀ i, i < acc.length → (acc.getD i d).score ≤ (res.getD i d).score) := by
  intro ps
  induction ps with
  | nil =>
      intro acc res h
      rw [byLengthGo] at h
      cases h
      exact ⟨rfl, fun i _ => Or.inl rfl, by simp, fun i _ => Nat.le_refl _⟩
  | cons sp rest ih =>
      intro acc res h
      cases hg : acc.get? sp.pattern.length with
      | none => rw [byLengthGo_cons_none hg] at h; cases h
      | some cur =>
          rw [byLengthGo_cons_some hg] at h
          have hsplt : sp.pattern.length < acc.length := lt_of_get?_eq_some hg
          have hcurD : acc.getD sp.pattern.length d = cur := getD_of_get? d hg
          by_cases hcs : cur.score < sp.score
          · rw [if_pos hcs] at h
            obtain ⟨ha, hb, hc, hd2⟩ := ih (acc.set sp.pattern.length sp) res h
            have hlen' : (acc.set sp.pattern.length sp).length = acc.length :=
              List.length_set acc _ _
            have hgetL : (acc.set sp.pattern.length sp).getD
                sp.pattern.length d = sp := getD_set_self acc sp d hsplt
            refine ⟨ha.trans hlen', ?_, ?_, ?_⟩
            · intro i hi
              rcases hb i (by rw [hlen']; exact hi) with heq | hgood
              · by_cases hiL : sp.pattern.length = i
                · subst hiL
                  rw [hgetL] at heq
                  refine Or.inr ⟨?_, ?_⟩
                  · rw [heq]; exact List.mem_cons_self _ _
                  · rw [heq]
                · rw [getD_set_ne acc sp d hiL] at heq
                  exact Or.inl heq
              · exact Or.inr ⟨List.mem_cons_of_mem _ hgood.1, hgood.2⟩
            · intro p hp
              rcases List.mem_cons.mp hp with hpe | hpm
              · subst hpe
                refine ⟨hsplt, ?_⟩
                have := hd2 p.pattern.length (by rw [hlen']; exact hsplt)
                rw [hgetL] at this
                exact this
              · have := hc p hpm
                exact ⟨by rw [← hlen']; exact this.1, this.2⟩
            · intro i hi
              have hstep := hd2 i (by rw [hlen']; exact hi)
              by_cases hiL : sp.pattern.length = i
              · subst hiL
                rw [hgetL] at hstep
                calc (acc.getD sp.pattern.length d).score
                    = cur.score := by rw [hcurD]
                  _ ≤ sp.score := Nat.le_of_lt hcs
                  _ ≤ _ := hstep
              · rw [getD_set_ne acc sp d hiL] at hstep
                exact hstep
          · rw [if_neg hcs] at h
            obtain ⟨ha, hb, hc, hd2⟩ := ih acc res h
            refine ⟨ha, ?_, ?_, hd2⟩
            · intro i hi
              rcases hb i hi with heq | hgood
              · exact Or.inl heq
              · exact Or.inr ⟨List.mem_cons_of_mem _ hgood.1, hgood.2⟩
            · intro p hp
              rcases List.mem_cons.mp hp with hpe | hpm
              · subst hpe
                refine ⟨hsplt, ?_⟩
                have hmono := hd2 p.pattern.length hsplt
                rw [hcurD] at hmono
                exact Nat.le_trans (Nat.le_of_not_lt hcs) hmono
              · exact hc p hpm

/-- The `scorable_patterns_by_length` loop raises `IndexError` exactly when
some processed pattern's length is outside the slot array. -/
theorem byLengthGo_error_iff :
    ∀ (ps acc : List ScoringPattern),
      byLengthGo acc ps = .error "IndexError" ↔
        ∃ p ∈ ps, acc.length ≤ p.pattern.length := by
  intro ps
  induction ps with
  | nil =>
      intro acc
      rw [byLengthGo]
      constructor
      · intro h; cases h
      · rintro ⟨p, hp, _⟩; cases hp
  | cons sp rest ih =>
      intro acc
      cases hg : acc.get? sp.pattern.length with
      | none =>
          rw [byLengthGo_cons_none hg]
          constructor
          · intro _
            exact ⟨sp, List.mem_cons_self _ _, List.get?_eq_none.mp hg⟩
          · intro _; rfl
      | some cur =>
          have hsplt : sp.pattern.length < acc.length := lt_of_get?_eq_some hg
          rw [byLengthGo_cons_some hg, ih]
          have haccl : (if cur.score < sp.score then
              acc.set sp.pattern.length sp else acc).length = acc.length := by
            split
            · exact List.length_set acc _ _
            · rfl
          rw [haccl]
          constructor
          · rintro ⟨p, hp, hple⟩
            exact ⟨p, List.mem_cons_of_mem _ hp, hple⟩
          · rintro ⟨p, hp, hple⟩
            rcases List.mem_cons.mp hp with hpe | hpm
            · subst hpe
              exact absurd hple (Nat.not_le_of_lt hsplt)
            · exact ⟨p, hpm, hple⟩

/-- C6 (amended): on a successful run, `scorable_patterns_by_length` returns
a 6-slot array in which the slot at index L — the pattern's raw length, not
L-1 — holds the highest-scoring legal pattern of exactly length L, or the
empty placeholder when none exists; a non-empty slot at index i always holds
a legal pattern whose length equals i.  (Slot 5 is thus the best length-5
pattern, slot 0 is always empty, and length-6 patterns do not fit and raise
instead.)  In particular for the roll `(1,1,1,5,5,2)` the slot holding
`(1,1,1)` with score 1000 is index 3, not index 2. -/
theorem C6_by_length_slots (dice : Pattern) (l : List ScoringPattern)
    (h : scorable_patterns_by_length dice = .ok l) :
    l.length = 6 ∧
    (∀ i, i < 6 → (l.getD i ⟨[], 0⟩).pattern ≠ [] →
      (l.getD i ⟨[], 0⟩).pattern.length = i ∧
      l.getD i ⟨[], 0⟩ ∈ scorable_patterns dice) ∧
    (∀ p ∈ scorable_patterns dice,
      p.score ≤ (l.getD p.pattern.length ⟨[], 0⟩).score) := by
  unfold scorable_patterns_by_length at h
  obtain ⟨ha, hb, hc, _⟩ := byLengthGo_ok_spec ⟨[], 0⟩ _ _ _ h
  rw [List.length_replicate] at ha hb hc
  refine ⟨ha, ?_, ?_⟩
  · intro i hi hne
    rcases hb i hi with heq | hgood
    · rw [getD_replicate] at heq
      rw [heq] at hne
      exact absurd rfl hne
    · exact ⟨hgood.2, hgood.1⟩
  · intro p hp
    exact (hc p hp).2

/-- Witness for C6's amended theorem at the roll `(1,1,1,5,5,2)`: the array
has six slots, slot 3 holds a length-3 pattern, and the length-2 pattern
`(1,1)` → 200 is dominated by slot 2. -/
theorem C6_by_length_slots_witness :
    byLengthList.length = 6 ∧
    (byLengthList.getD 3 ⟨[], 0⟩).pattern.length = 3 ∧
    (⟨[1, 1], 200⟩ : ScoringPattern).score ≤
      (byLengthList.getD 2 ⟨[], 0⟩).score := by
  have h := C6_by_length_slots [1, 1, 1, 5, 5, 2] byLengthList (by decide)
  exact ⟨h.1, (h.2.1 3 (by decide) (by decide)).1,
    h.2.2 ⟨[1, 1], 200⟩ (by decide)⟩

/-- C6 counterexample: for the roll `(1,1,1,5,5,2)`, index 2 of the returned
array holds the length-2 pattern `(1,1)` → 200, not `(1,1,1)` → 1000, which
sits at index 3; the claimed index-is-length-minus-one layout is wrong. -/
theorem C6_slot_index_counterexample :
    scorable_patterns_by_length [1, 1, 1, 5, 5, 2] = .ok byLengthList ∧
    byLengthList.getD 2 ⟨[], 0⟩ = ⟨[1, 1], 200⟩ ∧
    byLengthList.getD 3 ⟨[], 0⟩ = ⟨[1, 1, 1], 1000⟩ :=
  ⟨by decide, by decide, by decide⟩

/-- C10 (amended): `scorable_patterns_by_length` raises `IndexError` exactly
when the roll contains a scorable pattern of length 6 — any length-6 entry of
the table, which includes not only the six-of-a-kinds and the 1-2-3-4-5-6
straight but also combined patterns such as two triples — because a length-6
pattern is stored at index 6 of a 6-element array; every other roll returns
normally, and slot 0 of a normal return always holds the empty pattern with
score 0. -/
theorem C10_by_length_index_error (dice : Pattern) :
    (scorable_patterns_by_length dice = .error "IndexError" ↔
      ∃ p ∈ scorable_patterns dice, p.pattern.length = 6) ∧
    (∀ l, scorable_patterns_by_length dice = .ok l →
      l.getD 0 ⟨[], 0⟩ = ⟨[], 0⟩) := by
  constructor
  · unfold scorable_patterns_by_length
    rw [byLengthGo_error_iff]
    simp only [List.length_replicate]
    constructor
    · rintro ⟨p, hp, hle⟩
      exact ⟨p, hp,
        Nat.le_antisymm (scorable_pattern_length_bounds hp).2 hle⟩
    · rintro ⟨p, hp, he⟩
      exact ⟨p, hp, Nat.le_of_eq he.symm⟩
  · intro l hl
    unfold scorable_patterns_by_length at hl
    obtain ⟨_, hb, _, _⟩ := byLengthGo_ok_spec ⟨[], 0⟩ _ _ _ hl
    rw [List.length_replicate] at hb
    rcases hb 0 (by decide) with heq | hgood
    · rw [getD_replicate] at heq
      exact heq
    · have h1 := (scorable_pattern_length_bounds hgood.1).1
      rw [hgood.2] at h1
      exact absurd h1 (by decide)

/-- Witness for C10's amended theorem: the roll `(1,1,1,2,2,2)` contains the
combined length-6 pattern `(1,1,1,2,2,2)` → 1200 and indeed raises, while the
successful run on `(1,1,1,5,5,2)` has the empty pattern in slot 0. -/
theorem C10_by_length_index_error_witness :
    scorable_patterns_by_length [1, 1, 1, 2, 2, 2] = .error "IndexError" ∧
    byLengthList.getD 0 ⟨[], 0⟩ = ⟨[], 0⟩ := by
  constructor
  · exact (C10_by_length_index_error [1, 1, 1, 2, 2, 2]).1.mpr
      ⟨⟨[1, 1, 1, 2, 2, 2], 1200⟩, by decide, rfl⟩
  · exact (C10_by_length_index_error [1, 1, 1, 5, 5, 2]).2 byLengthList
      (by decide)

/-- C10 counterexample: the roll `(1,1,1,2,2,2)` contains no six-of-a-kind
and not the 1-2-3-4-5-6 straight, yet `scorable_patterns_by_length` raises
`IndexError` on it (via the combined pattern triple-1 + triple-2), so the
claim's characterization "six-of-a-kind or the sorted straight" and its
"every other roll returns normally" are both wrong. -/
theorem C10_not_only_six_of_a_kind_counterexample :
    scorable_patterns_by_length [1, 1, 1, 2, 2, 2] = .error "IndexError" ∧
    contains_pattern [1, 1, 1, 2, 2, 2] [1, 1, 1, 1, 1, 1] = false ∧
    contains_pattern [1, 1, 1, 2, 2, 2] [2, 2, 2, 2, 2, 2] = false ∧
    contains_pattern [1, 1, 1, 2, 2, 2] [3, 3, 3, 3, 3, 3] = false ∧
    contains_pattern [1, 1, 1, 2, 2, 2] [4, 4, 4, 4, 4, 4] = false ∧
    contains_pattern [1, 1, 1, 2, 2, 2] [5, 5, 5, 5, 5, 5] = false ∧
    contains_pattern [1, 1, 1, 2, 2, 2] [6, 6, 6, 6, 6, 6] = false ∧
    contains_pattern [1, 1, 1, 2, 2, 2] [1, 2, 3, 4, 5, 6] = false := by
  refine ⟨by decide, by decide, by decide, by decide, by decide, by decide,
    by decide, by decide⟩
